import Mathlib

/-!
Shallow embedding of the team-info presence engine of `rustplusplus`
(`src/structures/rustPlusTeamInfo.ts` and
`src/structures/rustPlusTeamInfoMember.ts`).

Timestamps are modelled as `Int` values counting milliseconds, matching the
JavaScript `Date.getTime()` representation; the wall clock is passed
explicitly as a `now` argument to every operation that reads it in the
source.  World coordinates `x`, `y` are modelled as `Int` (the source stores
floating-point numbers but only ever compares them for equality).  The
JavaScript `Map` holding the roster is modelled as an insertion-ordered
association list.
-/

namespace RustPlusPlus

/-- One member record of an incoming team-info snapshot
(`rp.AppTeamInfo_Member`). -/
structure AppTeamInfoMember where
  steamId : String
  name : String
  x : Int
  y : Int
  isOnline : Bool
  isAlive : Bool
  spawnTime : Nat
  deathTime : Nat
deriving DecidableEq, Repr

/-- An incoming team-info snapshot (`rp.AppTeamInfo`). -/
structure AppTeamInfo where
  leaderSteamId : String
  members : List AppTeamInfoMember
deriving DecidableEq, Repr

/-- The per-member state held by the engine (`RustPlusTeamInfoMember`):
the stored raw record plus derived bookkeeping. -/
structure RustPlusTeamInfoMember where
  appTeamInfoMember : AppTeamInfoMember
  lastMovementDate : Option Int
  wentOfflineDate : Option Int
  wasAfk : Bool
deriving DecidableEq, Repr

namespace RustPlusTeamInfoMember

/-- The class constructor: raw record seeded from the snapshot record,
derived fields at their initial state. -/
def make (a : AppTeamInfoMember) : RustPlusTeamInfoMember :=
  { appTeamInfoMember := a
    lastMovementDate := none
    wentOfflineDate := none
    wasAfk := false }

def isSteamIdChanged (self : RustPlusTeamInfoMember) (inc : AppTeamInfoMember) : Bool :=
  decide (self.appTeamInfoMember.steamId ≠ inc.steamId)

def isNameChanged (self : RustPlusTeamInfoMember) (inc : AppTeamInfoMember) : Bool :=
  decide (self.appTeamInfoMember.name ≠ inc.name)

def isXChanged (self : RustPlusTeamInfoMember) (inc : AppTeamInfoMember) : Bool :=
  decide (self.appTeamInfoMember.x ≠ inc.x)

def isYChanged (self : RustPlusTeamInfoMember) (inc : AppTeamInfoMember) : Bool :=
  decide (self.appTeamInfoMember.y ≠ inc.y)

def isOnlineChanged (self : RustPlusTeamInfoMember) (inc : AppTeamInfoMember) : Bool :=
  decide (self.appTeamInfoMember.isOnline ≠ inc.isOnline)

def isSpawnTimeChanged (self : RustPlusTeamInfoMember) (inc : AppTeamInfoMember) : Bool :=
  decide (self.appTeamInfoMember.spawnTime ≠ inc.spawnTime)

def isAliveChanged (self : RustPlusTeamInfoMember) (inc : AppTeamInfoMember) : Bool :=
  decide (self.appTeamInfoMember.isAlive ≠ inc.isAlive)

def isDeathTimeChanged (self : RustPlusTeamInfoMember) (inc : AppTeamInfoMember) : Bool :=
  decide (self.appTeamInfoMember.deathTime ≠ inc.deathTime)

def isGoneOnline (self : RustPlusTeamInfoMember) (inc : AppTeamInfoMember) : Bool :=
  (self.appTeamInfoMember.isOnline == false) && (inc.isOnline == true)

def isGoneOffline (self : RustPlusTeamInfoMember) (inc : AppTeamInfoMember) : Bool :=
  (self.appTeamInfoMember.isOnline == true) && (inc.isOnline == false)

def isGoneAlive (self : RustPlusTeamInfoMember) (inc : AppTeamInfoMember) : Bool :=
  (self.appTeamInfoMember.isAlive == false) && (inc.isAlive == true)

def isGoneDead (self : RustPlusTeamInfoMember) (inc : AppTeamInfoMember) : Bool :=
  ((self.appTeamInfoMember.isAlive == true) && (inc.isAlive == false)) ||
    self.isDeathTimeChanged inc

def isMoved (self : RustPlusTeamInfoMember) (inc : AppTeamInfoMember) : Bool :=
  self.isXChanged inc || self.isYChanged inc

/-- `isGoneAfk`: idle-transition predicate of the source. -/
def isGoneAfk (self : RustPlusTeamInfoMember) (inc : AppTeamInfoMember) : Bool :=
  !self.wasAfk && !self.isMoved inc && self.appTeamInfoMember.isOnline

/-- `isAfk`: the source compares `Date.now() - lastMovementDate.getTime()`
(a millisecond difference) against `constants.AFK_TIME_SECONDS`.  The
constant's defining module is not among the given sources, so the threshold
is taken as an explicit parameter `afkTimeSeconds`. -/
def isAfk (self : RustPlusTeamInfoMember) (now afkTimeSeconds : Int) : Bool :=
  match self.lastMovementDate with
  | none => false
  | some t => decide (afkTimeSeconds ≤ now - t)

/-- `getAfkSeconds`: millisecond difference divided by 1000 (exact rational
division, as in JavaScript float division). -/
def getAfkSeconds (self : RustPlusTeamInfoMember) (now : Int) : Rat :=
  match self.lastMovementDate with
  | none => 0
  | some t => ((now - t : Int) : Rat) / 1000

/-- `getOfflineTime`: `null` when `wentOfflineDate` is unset, otherwise the
elapsed seconds since it (the source then formats the seconds into a string
via `secondsToFullScale`; the formatting is not modelled, the `null` /
duration structure is). -/
def getOfflineTime (self : RustPlusTeamInfoMember) (now : Int) : Option Rat :=
  match self.wentOfflineDate with
  | none => none
  | some t => some (((now - t : Int) : Rat) / 1000)

/-- The mutating `updateTeamInfoMember` of the source, as a state
transformer.  The transition predicates read only the stored raw record,
which the source reassigns last, so threading the intermediate states is
faithful to the in-place mutation. -/
def updateTeamInfoMember (self : RustPlusTeamInfoMember) (inc : AppTeamInfoMember)
    (now : Int) : RustPlusTeamInfoMember :=
  let s1 := if self.isGoneOffline inc then { self with wentOfflineDate := some now } else self
  let s2 := if s1.isGoneOnline inc then
      { s1 with lastMovementDate := some now, wasAfk := false }
    else s1
  let s3 := if s2.isMoved inc then
      { s2 with lastMovementDate := some now, wasAfk := false }
    else if !s2.appTeamInfoMember.isOnline && !(s2.isGoneOnline inc) then
      { s2 with wasAfk := false }
    else s2
  { s3 with appTeamInfoMember := inc }

end RustPlusTeamInfoMember

/-- The roster state (`RustPlusTeamInfo`): the last ingested snapshot, the
keyed member collection and the two aggregate flags.  The external
`rpInstance` handle carries no state the engine reads and is omitted. -/
structure RustPlusTeamInfo where
  appTeamInfo : AppTeamInfo
  members : List (String × RustPlusTeamInfoMember)
  allOnline : Bool
  allOffline : Bool
deriving DecidableEq, Repr

namespace RustPlusTeamInfo

/-- The class constructor: empty member map, both aggregate flags false. -/
def make (appTeamInfo : AppTeamInfo) : RustPlusTeamInfo :=
  { appTeamInfo := appTeamInfo
    members := []
    allOnline := false
    allOffline := false }

def isPlayerInTeam (self : RustPlusTeamInfo) (steamId : String) : Bool :=
  self.members.any (fun p => p.1 == steamId)

def getMember (self : RustPlusTeamInfo) (steamId : String) : Option RustPlusTeamInfoMember :=
  (self.members.find? (fun p => p.1 == steamId)).map Prod.snd

def addMember (self : RustPlusTeamInfo) (a : AppTeamInfoMember) : RustPlusTeamInfo :=
  if self.isPlayerInTeam a.steamId then self
  else { self with members := self.members ++ [(a.steamId, RustPlusTeamInfoMember.make a)] }

def removeMember (self : RustPlusTeamInfo) (steamId : String) : RustPlusTeamInfo :=
  { self with members := self.members.filter (fun p => p.1 != steamId) }

/-- In-place mutation of the member object stored under `steamId`, modelled
as replacing the value at that key. -/
def setMember (self : RustPlusTeamInfo) (steamId : String)
    (m : RustPlusTeamInfoMember) : RustPlusTeamInfo :=
  { self with members := self.members.map (fun p => if p.1 == steamId then (p.1, m) else p) }

def getNewMembers (self : RustPlusTeamInfo) (snap : AppTeamInfo) : List AppTeamInfoMember :=
  snap.members.filter (fun m => !self.isPlayerInTeam m.steamId)

def getLeftMembers (self : RustPlusTeamInfo) (snap : AppTeamInfo) : List AppTeamInfoMember :=
  (self.members.filter (fun p =>
      !(snap.members.any (fun m => m.steamId == p.2.appTeamInfoMember.steamId)))).map
    (fun p => p.2.appTeamInfoMember)

/-- `getReminingMembers` of the source (spelling preserved): for each stored
member whose identifier is found in the snapshot it pushes the **stored**
record `member.appTeamInfoMember`, not the matching incoming record. -/
def getReminingMembers (self : RustPlusTeamInfo) (snap : AppTeamInfo) : List AppTeamInfoMember :=
  (self.members.filter (fun p =>
      snap.members.any (fun m => m.steamId == p.2.appTeamInfoMember.steamId))).map
    (fun p => p.2.appTeamInfoMember)

/-- The body of the remaining-member loop of `updateTeamInfo`: look the
member up and, when present, run `updateTeamInfoMember` on it (mutation in
place, modelled by `setMember`). -/
def updateMemberStep (now : Int) (t : RustPlusTeamInfo) (m : AppTeamInfoMember) :
    RustPlusTeamInfo :=
  match t.getMember m.steamId with
  | some tm => t.setMember m.steamId (tm.updateTeamInfoMember m now)
  | none => t

/-- `updateTeamInfo` (the ingest operation).  The leader-change check has an
empty body in the source (a TODO comment) and the guild-instance color
bookkeeping is external state the engine never reads back, so neither
affects the roster state. -/
def updateTeamInfo (self : RustPlusTeamInfo) (snap : AppTeamInfo)
    (now : Int) : RustPlusTeamInfo :=
  let t1 := (self.getNewMembers snap).foldl (fun t m => t.addMember m) self
  let t2 := (t1.getLeftMembers snap).foldl (fun t m => t.removeMember m.steamId) t1
  let t3 := (t2.getReminingMembers snap).foldl (updateMemberStep now) t2
  let flags := t3.members.foldl
    (fun (p : Bool × Bool) q =>
      (p.1 && q.2.appTeamInfoMember.isOnline, p.2 && !q.2.appTeamInfoMember.isOnline))
    (true, true)
  { t3 with allOnline := flags.1, allOffline := flags.2, appTeamInfo := snap }

end RustPlusTeamInfo

/-! Concrete fixtures used by the counterexample and witness theorems. -/

/-- A snapshot record for member "A", online and alive. -/
def recA : AppTeamInfoMember :=
  { steamId := "A", name := "alice", x := 0, y := 0,
    isOnline := true, isAlive := true, spawnTime := 100, deathTime := 0 }

/-- A later snapshot record for the same member "A": now offline, moved, with
a changed name and death timestamp. -/
def recAOff : AppTeamInfoMember :=
  { steamId := "A", name := "alice2", x := 5, y := 5,
    isOnline := false, isAlive := true, spawnTime := 100, deathTime := 200 }

def snapA : AppTeamInfo := { leaderSteamId := "A", members := [recA] }

def snapAOff : AppTeamInfo := { leaderSteamId := "A", members := [recAOff] }

/-- The roster obtained by ingesting `snapA` into a fresh roster: it holds
one member "A" whose stored record is `recA`. -/
def rosterA : RustPlusTeamInfo :=
  (RustPlusTeamInfo.make snapA).updateTeamInfo snapA 0

/-- Claim C1 (failing evaluation): ingesting `snapAOff` into `rosterA` leaves
member "A"'s stored raw record equal to the old `recA`, not the incoming
`recAOff` — `getReminingMembers` hands `updateTeamInfoMember` the stored
record instead of the incoming one, so the stored raw fields never follow
the snapshot. -/
theorem updateTeamInfo_keeps_stale_member_record :
    ((rosterA.updateTeamInfo snapAOff 10).getMember "A").map
        RustPlusTeamInfoMember.appTeamInfoMember = some recA ∧ recA ≠ recAOff := by
  constructor
  · rfl
  · decide

/-- Claim C2 (failing evaluation): `rosterA` stores member "A" as online, the
incoming snapshot reports it offline, yet after ingest `wentOfflineDate` is
still unset and `getOfflineTime` returns `none` — the offline transition is
never detected because the update is run against the stored record. -/
theorem updateTeamInfo_misses_offline_transition :
    recA.isOnline = true ∧ recAOff.isOnline = false ∧
    ((rosterA.updateTeamInfo snapAOff 10).getMember "A").map
        RustPlusTeamInfoMember.wentOfflineDate = some none ∧
    ((rosterA.updateTeamInfo snapAOff 10).getMember "A").map
        (fun m => m.getOfflineTime 20) = some none := by
  refine ⟨rfl, rfl, rfl, rfl⟩

/-- Claim C4 (failing evaluation): `rosterA` is the state after ingesting
`snapA`; on the second ingest of the identical snapshot the became-idle
predicate `isGoneAfk` evaluates to `true` for member "A" (it is online,
unmoved, and `wasAfk` is never set), even though every member field — indeed
the whole roster state — is left unchanged. -/
theorem second_ingest_still_flags_idle :
    ((rosterA.getMember "A").map (fun m => m.isGoneAfk recA)) = some true ∧
    rosterA.updateTeamInfo snapA 5 = rosterA := by
  refine ⟨rfl, by decide⟩

/-- Claim C5 (failing evaluation): a member that stays online with unchanged
position satisfies `isGoneAfk` on every consecutive ingest, not exactly
once — nothing in the source ever assigns `wasAfk := true`. -/
theorem isGoneAfk_fires_every_ingest :
    (RustPlusTeamInfoMember.make recA).isGoneAfk recA = true ∧
    ((RustPlusTeamInfoMember.make recA).updateTeamInfoMember recA 0).isGoneAfk recA = true ∧
    (((RustPlusTeamInfoMember.make recA).updateTeamInfoMember recA 0).updateTeamInfoMember
        recA 5).isGoneAfk recA = true := by
  refine ⟨rfl, rfl, rfl⟩

/-- A member state whose last movement was recorded at time 0 (ms). -/
def afkMember : RustPlusTeamInfoMember :=
  { appTeamInfoMember := recA, lastMovementDate := some 0,
    wentOfflineDate := none, wasAfk := false }

/-- Claim C9 (failing evaluation): with the idle threshold at 300 (the
constant is denominated in seconds, per its source name `AFK_TIME_SECONDS`),
a member whose last movement was 500 **milliseconds** ago is already
reported idle by `isAfk`, although `getAfkSeconds` returns 1/2 — far below
the threshold.  `isAfk` compares a millisecond difference against the
seconds-denominated constant, so it disagrees with
`getAfkSeconds ≥ threshold` by a factor of 1000. -/
theorem isAfk_units_mismatch :
    afkMember.isAfk 500 300 = true ∧
    afkMember.getAfkSeconds 500 < 300 ∧
    ¬(afkMember.isAfk 500 300 = true ↔ 300 ≤ afkMember.getAfkSeconds 500) := by
  refine ⟨rfl, by norm_num [afkMember, RustPlusTeamInfoMember.getAfkSeconds], ?_⟩
  intro h
  have h2 : (300 : Rat) ≤ afkMember.getAfkSeconds 500 := h.mp rfl
  norm_num [afkMember, RustPlusTeamInfoMember.getAfkSeconds] at h2

/-- A snapshot with no members. -/
def emptySnap : AppTeamInfo := { leaderSteamId := "", members := [] }

/-- Claim C3 (counterexample): ingesting an empty snapshot into an empty
roster leaves the member mapping empty, yet `allOnline` and `allOffline`
both come out `true` — the recomputation loop starts both accumulators at
`true` and an empty mapping never corrects them — contradicting the claim
that both are `false` for an empty roster. -/
theorem empty_roster_flags_both_true :
    ((RustPlusTeamInfo.make emptySnap).updateTeamInfo emptySnap 0).members = [] ∧
    ((RustPlusTeamInfo.make emptySnap).updateTeamInfo emptySnap 0).allOnline = true ∧
    ((RustPlusTeamInfo.make emptySnap).updateTeamInfo emptySnap 0).allOffline = true := by
  refine ⟨rfl, rfl, rfl⟩

/-- Claim C3 (amended): for every roster whose member mapping is empty after
an ingest, the recomputed aggregate flags `allOnline` and `allOffline` are
both **true** (the vacuous value of the conjunction loop), not both false. -/
theorem allOnline_allOffline_true_of_empty
    (self : RustPlusTeamInfo) (snap : AppTeamInfo) (now : Int)
    (h : (self.updateTeamInfo snap now).members = []) :
    (self.updateTeamInfo snap now).allOnline = true ∧
      (self.updateTeamInfo snap now).allOffline = true := by
  simp only [RustPlusTeamInfo.updateTeamInfo] at h ⊢
  rw [h]
  exact ⟨rfl, rfl⟩

/-- Witness for the amended C3 at a concrete input: the empty roster and the
empty snapshot. -/
theorem allOnline_allOffline_true_of_empty_witness :
    ((RustPlusTeamInfo.make emptySnap).updateTeamInfo emptySnap 0).members = [] ∧
    (((RustPlusTeamInfo.make emptySnap).updateTeamInfo emptySnap 0).allOnline = true ∧
      ((RustPlusTeamInfo.make emptySnap).updateTeamInfo emptySnap 0).allOffline = true) :=
  ⟨rfl, allOnline_allOffline_true_of_empty (RustPlusTeamInfo.make emptySnap) emptySnap 0 rfl⟩

/-- A stored record for member "B": offline at position (0, 0). -/
def recBOff : AppTeamInfoMember :=
  { steamId := "B", name := "bob", x := 0, y := 0,
    isOnline := false, isAlive := true, spawnTime := 0, deathTime := 0 }

/-- An incoming record for member "B": still offline but at position (1, 0). -/
def recBOffMoved : AppTeamInfoMember :=
  { steamId := "B", name := "bob", x := 1, y := 0,
    isOnline := false, isAlive := true, spawnTime := 0, deathTime := 0 }

/-- Claim C6 (counterexample): a stored-offline member updated with an
incoming record that is also offline but has a different `x` gets
`lastMovementDate` set to the current time — `updateTeamInfoMember` guards
the movement branch only on `isMoved`, with no online check, so
`lastMovementAt` **is** set while offline when the position changes. -/
theorem lastMovement_set_while_offline :
    recBOff.isOnline = false ∧ recBOffMoved.isOnline = false ∧
    (RustPlusTeamInfoMember.make recBOff).lastMovementDate = none ∧
    ((RustPlusTeamInfoMember.make recBOff).updateTeamInfoMember
        recBOffMoved 7).lastMovementDate = some 7 := by
  refine ⟨rfl, rfl, rfl, rfl⟩

/-- Claim C6 (amended): for a stored-offline member and an incoming record
that is also offline **and has unchanged x and y**, `updateTeamInfoMember`
leaves `lastMovementDate` unchanged; when the position differs, the source
does set it even while offline. -/
theorem lastMovement_unchanged_offline_stationary
    (m : RustPlusTeamInfoMember) (inc : AppTeamInfoMember) (now : Int)
    (hstored : m.appTeamInfoMember.isOnline = false) (hinc : inc.isOnline = false)
    (hx : m.appTeamInfoMember.x = inc.x) (hy : m.appTeamInfoMember.y = inc.y) :
    (m.updateTeamInfoMember inc now).lastMovementDate = m.lastMovementDate := by
  simp [RustPlusTeamInfoMember.updateTeamInfoMember, RustPlusTeamInfoMember.isGoneOffline,
    RustPlusTeamInfoMember.isGoneOnline, RustPlusTeamInfoMember.isMoved,
    RustPlusTeamInfoMember.isXChanged, RustPlusTeamInfoMember.isYChanged,
    hstored, hinc, hx, hy]

/-- Witness for the amended C6 at a concrete input: member "B" stored and
incoming as the same offline, stationary record. -/
theorem lastMovement_unchanged_offline_stationary_witness :
    (RustPlusTeamInfoMember.make recBOff).appTeamInfoMember.isOnline = false ∧
    recBOff.isOnline = false ∧
    (RustPlusTeamInfoMember.make recBOff).appTeamInfoMember.x = recBOff.x ∧
    (RustPlusTeamInfoMember.make recBOff).appTeamInfoMember.y = recBOff.y ∧
    ((RustPlusTeamInfoMember.make recBOff).updateTeamInfoMember recBOff 7).lastMovementDate =
      (RustPlusTeamInfoMember.make recBOff).lastMovementDate :=
  ⟨rfl, rfl, rfl, rfl,
    lastMovement_unchanged_offline_stationary (RustPlusTeamInfoMember.make recBOff)
      recBOff 7 rfl rfl rfl rfl⟩

/-- Member states reachable by the engine: freshly constructed from a
snapshot record, or the result of any `updateTeamInfoMember` step on a
reachable state. -/
inductive ReachableMember : RustPlusTeamInfoMember → Prop where
  | make (a : AppTeamInfoMember) : ReachableMember (RustPlusTeamInfoMember.make a)
  | update {m : RustPlusTeamInfoMember} (inc : AppTeamInfoMember) (now : Int) :
      ReachableMember m → ReachableMember (m.updateTeamInfoMember inc now)

/-- `updateTeamInfoMember` never turns `wasAfk` on: every assignment to it
writes `false`. -/
theorem wasAfk_update_of_false (m : RustPlusTeamInfoMember) (inc : AppTeamInfoMember)
    (now : Int) (h : m.wasAfk = false) :
    (m.updateTeamInfoMember inc now).wasAfk = false := by
  simp only [RustPlusTeamInfoMember.updateTeamInfoMember]
  repeat' split
  all_goals simp_all

/-- Claim C10: in every reachable member state `wasAfk` is `false` — it is
initialised to `false` and every assignment in `updateTeamInfoMember`
assigns `false` — so `isGoneAfk` reduces to "not moved and stored online
flag is true". -/
theorem wasAfk_false_and_isGoneAfk_reduces
    (m : RustPlusTeamInfoMember) (inc : AppTeamInfoMember) (h : ReachableMember m) :
    m.wasAfk = false ∧
      m.isGoneAfk inc = (!m.isMoved inc && m.appTeamInfoMember.isOnline) := by
  have hw : m.wasAfk = false := by
    induction h with
    | make a => rfl
    | update inc' now' hm ih => exact wasAfk_update_of_false _ _ _ ih
  refine ⟨hw, ?_⟩
  simp [RustPlusTeamInfoMember.isGoneAfk, hw]

/-- Witness for C10 at a concrete input: the freshly constructed member for
record `recA`. -/
theorem wasAfk_false_and_isGoneAfk_reduces_witness :
    ReachableMember (RustPlusTeamInfoMember.make recA) ∧
    ((RustPlusTeamInfoMember.make recA).wasAfk = false ∧
      (RustPlusTeamInfoMember.make recA).isGoneAfk recA =
        (!(RustPlusTeamInfoMember.make recA).isMoved recA &&
          (RustPlusTeamInfoMember.make recA).appTeamInfoMember.isOnline)) :=
  ⟨ReachableMember.make recA,
    wasAfk_false_and_isGoneAfk_reduces (RustPlusTeamInfoMember.make recA) recA
      (ReachableMember.make recA)⟩

namespace RustPlusTeamInfo

/-- Membership as an existential over the underlying association list. -/
theorem isPlayerInTeam_iff_exists (t : RustPlusTeamInfo) (s : String) :
    t.isPlayerInTeam s = true ↔ ∃ p ∈ t.members, p.1 = s := by
  simp [isPlayerInTeam, List.any_eq_true]

/-- `addMember` makes exactly the added identifier a member (or is a no-op
when it already is one). -/
theorem isPlayerInTeam_addMember (t : RustPlusTeamInfo) (a : AppTeamInfoMember) (s : String) :
    (t.addMember a).isPlayerInTeam s = true ↔
      (t.isPlayerInTeam s = true ∨ a.steamId = s) := by
  unfold addMember
  split
  · rename_i h
    constructor
    · exact Or.inl
    · rintro (hm | rfl)
      · exact hm
      · exact h
  · simp [isPlayerInTeam, List.any_eq_true]

/-- Membership after folding `addMember` over a list of records. -/
theorem isPlayerInTeam_addFold (l : List AppTeamInfoMember) (t : RustPlusTeamInfo) (s : String) :
    ((l.foldl (fun t m => t.addMember m) t).isPlayerInTeam s = true) ↔
      (t.isPlayerInTeam s = true ∨ ∃ m ∈ l, m.steamId = s) := by
  induction l generalizing t with
  | nil => simp
  | cons a l ih =>
      simp only [List.foldl_cons]
      rw [ih, isPlayerInTeam_addMember]
      simp only [List.mem_cons]
      constructor
      · rintro (⟨hm | rfl⟩ | ⟨m, hm, rfl⟩)
        · exact Or.inl hm
        · exact Or.inr ⟨a, Or.inl rfl, rfl⟩
        · exact Or.inr ⟨m, Or.inr hm, rfl⟩
      · rintro (hm | ⟨m, hm | hm, rfl⟩)
        · exact Or.inl (Or.inl hm)
        · subst hm; exact Or.inl (Or.inr rfl)
        · exact Or.inr ⟨m, hm, rfl⟩

/-- `removeMember` removes exactly the given identifier. -/
theorem isPlayerInTeam_removeMember (t : RustPlusTeamInfo) (k s : String) :
    (t.removeMember k).isPlayerInTeam s = true ↔
      (t.isPlayerInTeam s = true ∧ s ≠ k) := by
  simp only [removeMember, isPlayerInTeam, List.any_eq_true, List.mem_filter,
    bne_iff_ne, beq_iff_eq, ne_eq]
  constructor
  · rintro ⟨p, ⟨hp, hpk⟩, rfl⟩
    exact ⟨⟨p, hp, rfl⟩, hpk⟩
  · rintro ⟨⟨p, hp, rfl⟩, hk⟩
    exact ⟨p, ⟨hp, hk⟩, rfl⟩

/-- Membership after folding `removeMember` over a list of records. -/
theorem isPlayerInTeam_removeFold (l : List AppTeamInfoMember) (t : RustPlusTeamInfo)
    (s : String) :
    ((l.foldl (fun t m => t.removeMember m.steamId) t).isPlayerInTeam s = true) ↔
      (t.isPlayerInTeam s = true ∧ ∀ m ∈ l, m.steamId ≠ s) := by
  induction l generalizing t with
  | nil => simp
  | cons a l ih =>
      simp only [List.foldl_cons]
      rw [ih, isPlayerInTeam_removeMember]
      simp only [List.mem_cons, ne_eq]
      constructor
      · rintro ⟨⟨hm, hsk⟩, hall⟩
        refine ⟨hm, ?_⟩
        rintro m (rfl | hml)
        · exact fun hc => hsk hc.symm
        · exact hall m hml
      · rintro ⟨hm, hall⟩
        exact ⟨⟨hm, fun hc => hall a (Or.inl rfl) hc.symm⟩,
          fun m hml => hall m (Or.inr hml)⟩

/-- `setMember` never changes membership: it only replaces a stored value. -/
theorem isPlayerInTeam_setMember (t : RustPlusTeamInfo) (k : String)
    (m : RustPlusTeamInfoMember) (s : String) :
    (t.setMember k m).isPlayerInTeam s = t.isPlayerInTeam s := by
  have hg : ∀ p : String × RustPlusTeamInfoMember,
      ((if p.1 == k then (p.1, m) else p).1 == s) = (p.1 == s) := by
    intro p; split <;> rfl
  simp only [setMember, isPlayerInTeam, List.any_map, Function.comp_def, hg]

/-- The remaining-member update fold never changes membership. -/
theorem isPlayerInTeam_updateFold (l : List AppTeamInfoMember) (t : RustPlusTeamInfo)
    (now : Int) (s : String) :
    ((l.foldl (updateMemberStep now) t).isPlayerInTeam s) = t.isPlayerInTeam s := by
  induction l generalizing t with
  | nil => rfl
  | cons a l ih =>
      simp only [List.foldl_cons]
      rw [ih]
      cases h : t.getMember a.steamId with
      | none => simp [updateMemberStep, h]
      | some tm => simp [updateMemberStep, h, isPlayerInTeam_setMember]

/-- The `Map` representation invariant of the source roster: every stored
member record carries the identifier it is keyed under. -/
def KeysConsistent (t : RustPlusTeamInfo) : Prop :=
  ∀ p ∈ t.members, p.2.appTeamInfoMember.steamId = p.1

theorem keysConsistent_addMember (t : RustPlusTeamInfo) (a : AppTeamInfoMember)
    (h : KeysConsistent t) : KeysConsistent (t.addMember a) := by
  unfold addMember
  split
  · exact h
  · intro p hp
    simp only [List.mem_append, List.mem_singleton] at hp
    rcases hp with hp | rfl
    · exact h p hp
    · rfl

theorem keysConsistent_addFold (l : List AppTeamInfoMember) (t : RustPlusTeamInfo)
    (h : KeysConsistent t) :
    KeysConsistent (l.foldl (fun t m => t.addMember m) t) := by
  induction l generalizing t with
  | nil => exact h
  | cons a l ih => exact ih _ (keysConsistent_addMember t a h)

theorem mem_getNewMembers_iff (t : RustPlusTeamInfo) (snap : AppTeamInfo)
    (m : AppTeamInfoMember) :
    m ∈ t.getNewMembers snap ↔ m ∈ snap.members ∧ t.isPlayerInTeam m.steamId = false := by
  simp [getNewMembers, List.mem_filter]

theorem mem_getLeftMembers_iff (t : RustPlusTeamInfo) (snap : AppTeamInfo)
    (m' : AppTeamInfoMember) :
    m' ∈ t.getLeftMembers snap ↔
      ∃ p ∈ t.members, p.2.appTeamInfoMember = m' ∧
        (snap.members.any
          (fun m => m.steamId == p.2.appTeamInfoMember.steamId)) = false := by
  simp only [getLeftMembers, List.mem_map, List.mem_filter, Bool.not_eq_true',
    Bool.not_eq_eq_eq_not, Bool.not_true]
  constructor
  · rintro ⟨p, ⟨hp, hq⟩, rfl⟩
    exact ⟨p, hp, rfl, hq⟩
  · rintro ⟨p, hp, rfl, hq⟩
    exact ⟨p, ⟨hp, hq⟩, rfl⟩

end RustPlusTeamInfo

/-- A snapshot listing only member "B". -/
def snapBOff : AppTeamInfo := { leaderSteamId := "B", members := [recBOff] }

/-- Claim C8: for a well-formed roster (each stored record keyed under its
own identifier) and a snapshot with pairwise-distinct identifiers, after
ingest an identifier is a member exactly when it appears in the snapshot's
member list: new identifiers are added and absent ones removed in the same
cycle. -/
theorem isPlayerInTeam_after_updateTeamInfo_iff
    (self : RustPlusTeamInfo) (snap : AppTeamInfo) (now : Int) (id : String)
    (hcons : RustPlusTeamInfo.KeysConsistent self)
    (hsnap : (snap.members.map AppTeamInfoMember.steamId).Nodup) :
    (self.updateTeamInfo snap now).isPlayerInTeam id = true ↔
      id ∈ snap.members.map AppTeamInfoMember.steamId := by
  have hred : (self.updateTeamInfo snap now).isPlayerInTeam id =
      ((((self.getNewMembers snap).foldl (fun t m => t.addMember m)
            self).getLeftMembers snap).foldl (fun t m => t.removeMember m.steamId)
          ((self.getNewMembers snap).foldl (fun t m => t.addMember m)
            self)).isPlayerInTeam id :=
    RustPlusTeamInfo.isPlayerInTeam_updateFold _ _ now id
  rw [hred, RustPlusTeamInfo.isPlayerInTeam_removeFold,
    RustPlusTeamInfo.isPlayerInTeam_addFold, List.mem_map]
  have hKC : RustPlusTeamInfo.KeysConsistent
      ((self.getNewMembers snap).foldl (fun t m => t.addMember m) self) :=
    RustPlusTeamInfo.keysConsistent_addFold _ _ hcons
  constructor
  · rintro ⟨h1, h2⟩
    rcases h1 with hself | ⟨m, hm, rfl⟩
    · by_contra hno
      push_neg at hno
      have ht1 : ((self.getNewMembers snap).foldl (fun t m => t.addMember m)
          self).isPlayerInTeam id = true :=
        (RustPlusTeamInfo.isPlayerInTeam_addFold _ _ _).mpr (Or.inl hself)
      obtain ⟨p, hp, hpid⟩ := (RustPlusTeamInfo.isPlayerInTeam_iff_exists _ _).mp ht1
      have hQ : (snap.members.any
          (fun m => m.steamId == p.2.appTeamInfoMember.steamId)) = false := by
        rw [hKC p hp, hpid]
        rw [Bool.eq_false_iff]
        intro hany
        obtain ⟨x, hx, hxid⟩ := List.any_eq_true.mp hany
        exact hno x hx (by simpa using hxid)
      have hleft : p.2.appTeamInfoMember ∈
          ((self.getNewMembers snap).foldl (fun t m => t.addMember m)
            self).getLeftMembers snap :=
        (RustPlusTeamInfo.mem_getLeftMembers_iff _ _ _).mpr ⟨p, hp, rfl, hQ⟩
      exact (h2 _ hleft) (by rw [hKC p hp, hpid])
    · exact ⟨m, ((RustPlusTeamInfo.mem_getNewMembers_iff _ _ _).mp hm).1, rfl⟩
  · rintro ⟨m, hm, rfl⟩
    constructor
    · by_cases hself : self.isPlayerInTeam m.steamId = true
      · exact Or.inl hself
      · refine Or.inr ⟨m, ?_, rfl⟩
        rw [RustPlusTeamInfo.mem_getNewMembers_iff]
        exact ⟨hm, by simpa using hself⟩
    · intro m' hm'
      obtain ⟨p, hp, rfl, hq⟩ := (RustPlusTeamInfo.mem_getLeftMembers_iff _ _ _).mp hm'
      intro heq
      rw [heq] at hq
      have hwit : snap.members.any (fun x => x.steamId == m.steamId) = true :=
        List.any_eq_true.mpr ⟨m, hm, by simp⟩
      rw [hwit] at hq
      exact Bool.true_eq_false.mp hq

/-- Witness for C8 at a concrete input: `rosterA` holds only member "A";
ingesting a snapshot listing only member "B" makes "B" a member. -/
theorem isPlayerInTeam_after_updateTeamInfo_iff_witness :
    RustPlusTeamInfo.KeysConsistent rosterA ∧
    ((snapBOff.members.map AppTeamInfoMember.steamId).Nodup ∧
      ((rosterA.updateTeamInfo snapBOff 3).isPlayerInTeam "B" = true ↔
        "B" ∈ snapBOff.members.map AppTeamInfoMember.steamId)) :=
  ⟨by show ∀ p ∈ rosterA.members, p.2.appTeamInfoMember.steamId = p.1
      decide,
    by decide,
    isPlayerInTeam_after_updateTeamInfo_iff rosterA snapBOff 3 "B"
      (by show ∀ p ∈ rosterA.members, p.2.appTeamInfoMember.steamId = p.1
          decide)
      (by decide)⟩

/-- Claim C7: `isGoneDead` holds exactly when the stored record is alive and
the incoming one is dead, or the death timestamp changed; a changed death
timestamp alone (alive flag staying true) therefore classifies as
became-dead. -/
theorem isGoneDead_iff_dead_flip_or_deathTime_changed
    (self : RustPlusTeamInfoMember) (inc : AppTeamInfoMember) :
    self.isGoneDead inc = true ↔
      ((self.appTeamInfoMember.isAlive = true ∧ inc.isAlive = false) ∨
        self.appTeamInfoMember.deathTime ≠ inc.deathTime) := by
  simp [RustPlusTeamInfoMember.isGoneDead, RustPlusTeamInfoMember.isDeathTimeChanged,
    Bool.or_eq_true, Bool.and_eq_true]

end RustPlusPlus
